import Mathlib

/-!
Verification of the client-side session state machine of the RAG Document
Assistant (src/app.py) against its natural-language specification.

The Python source is a Streamlit script.  All state lives in the
per-session store (`st.session_state`); every user event re-runs the
script top to bottom.  We embed the store as an explicit `AppState`
structure and each event handler as a pure state-transition function,
with the outcome of the (external) HTTP call passed in as data, and the
wall-clock values (`time.strftime`, `time.time`) passed in as explicit
arguments.  Python dicts with optional keys become structures with
`Option` fields (or sum types when the source only ever builds a fixed
set of dict shapes); Python truthiness tests on strings / `None` are
embedded explicitly.
-/

namespace RagApp

/-- Python truthiness of an optional string: `None` and `""` are falsy. -/
def pyTruthy : Option String → Bool
  | none => false
  | some s => !(s == "")

/-- Python `a or b` on optional strings: yields `a` unless it is falsy. -/
def pyOrStr : Option String → Option String → Option String
  | some s, b => if s = "" then b else some s
  | none, b => b

/-- Python `a or dflt` collapsing an optional string to a string default
(`searched_doc or "All Documents"` and `process_name or uploaded_file.name`). -/
def pyGetOr (a : Option String) (dflt : String) : String :=
  match a with
  | some s => if s = "" then dflt else s
  | none => dflt

/-- The dict stored in `st.session_state.selected_document`, built by
the dropdown handler (app.py:266-270) and by the "Chat with this" button
(app.py:603-606).  The diagnostic `info` entry is never read back and is
omitted. -/
structure SelectedDoc where
  name : String
  id : String
deriving DecidableEq

/-- One entry of the server-returned `sources` array; only `content` is
ever read by the client (app.py:299). -/
structure Source where
  content : String
deriving DecidableEq

/-- The dict of query parameters built at app.py:327-346: key `question`
always present, the three document keys optional. -/
structure Params where
  question : String
  document_name : Option String := none
  document_filter : Option String := none
  document_id : Option String := none
deriving DecidableEq

/-- The query-parameter construction of the tab-1 question handler
(app.py:326-346): start from `{"question": question}`; if
`selected_document` is truthy add `document_name`/`document_filter` from
its name and, when its `id` is truthy, `document_id`; afterwards, if
`chat_with_doc` is truthy, assign `document_filter` and `document_name`
from it (overwriting any values the selection put there). -/
def buildParams (sel : Option SelectedDoc) (foc : Option String) (q : String) : Params :=
  let p : Params := { question := q }
  let p : Params :=
    match sel with
    | some sd =>
        { p with
          document_name := some sd.name
          document_filter := some sd.name
          document_id := if sd.id = "" then none else some sd.id }
    | none => p
  match foc with
  | some c => if c = "" then p else { p with document_filter := some c, document_name := some c }
  | none => p

/-- The scope-resolution rule exactly as the specification words it
(spec §4.3, claim C1): an explicit per-query selection, when present,
determines `document_name`/`document_filter`/`document_id`; otherwise a
truthy standing focus determines `document_name`/`document_filter`;
otherwise no document parameters are sent.  Stated from the spec, to be
compared against `buildParams` (which is stated from the source). -/
def claimedScopeParams (sel : Option SelectedDoc) (foc : Option String) (q : String) : Params :=
  match sel with
  | some sd =>
      { question := q
        document_name := some sd.name
        document_filter := some sd.name
        document_id := if sd.id = "" then none else some sd.id }
  | none =>
      match foc with
      | some c =>
          if c = "" then { question := q }
          else { question := q, document_name := some c, document_filter := some c }
      | none => { question := q }

/-- The scope resolution the source actually implements, stated
field-wise (the amended form of claim C1): `document_name` and
`document_filter` come from the standing focus when it is truthy — the
focus overrides any explicit selection — and from the selection
otherwise; `document_id` comes from the explicit selection alone. -/
def amendedScopeParams (sel : Option SelectedDoc) (foc : Option String) (q : String) : Params :=
  let selName : Option String :=
    match sel with
    | some sd => some sd.name
    | none => none
  { question := q
    document_name := if pyTruthy foc then foc else selName
    document_filter := if pyTruthy foc then foc else selName
    document_id :=
      match sel with
      | some sd => if sd.id = "" then none else some sd.id
      | none => none }

/-- Feedback rating kind; `add_feedback_to_history` is only ever invoked
with `'good'` or `'bad'` (app.py:308, 311). -/
inductive FbType where
  | good
  | bad
deriving DecidableEq, BEq

/-- One value of the feedback dict: `{'type': ..., 'timestamp': ...}`
(app.py:104-107). -/
structure FbEntry where
  fbType : FbType
  timestamp : String
deriving DecidableEq

/-- The JSON body of a successful upload response, restricted to the
fields the client reads (app.py:506, 517): the three candidate id fields
and `chunks_added`. -/
structure UploadResp where
  document_id : Option String := none
  id : Option String := none
  file_id : Option String := none
  chunks_added : Nat := 0
deriving DecidableEq

/-- One entry of `st.session_state.uploaded_documents`: the `doc_info`
dict built at app.py:513-524. -/
structure Doc where
  name : String
  original_filename : String
  size_mb : ℚ
  chunks : Nat
  chunk_size : Nat
  chunk_overlap : Nat
  timestamp : String
  status : String
  document_id : String
  upload_response : UploadResp
deriving DecidableEq

/-- One entry of `st.session_state.chat_history`.  The source builds
exactly two dict shapes: the success record at app.py:373-380 (keys
`question`, `answer`, `sources`, `timestamp`, `document_searched`,
`query_params`) and the failure record at app.py:388-394 / 399-405
(keys `question`, `answer`, `sources`, `error`, `timestamp` — note: no
`document_searched`, no `query_params`). -/
inductive Conversation where
  | success (question answer : String) (sources : List Source) (timestamp : String)
      (document_searched : String) (query_params : Params)
  | failure (question answer : String) (sources : List Source) (timestamp : String)
deriving DecidableEq

namespace Conversation

/-- Truthiness of the record's optional `error` key: the success record
has no such key (falsy), the failure record stores `True`. -/
def isError : Conversation → Bool
  | .success _ _ _ _ _ _ => false
  | .failure _ _ _ _ => true

/-- Lookup of the record's optional `document_searched` key: present
only on success records. -/
def documentScope? : Conversation → Option String
  | .success _ _ _ _ ds _ => some ds
  | .failure _ _ _ _ => none

/-- The `answer` value of the record. -/
def answer : Conversation → String
  | .success _ a _ _ _ _ => a
  | .failure _ a _ _ => a

/-- The `question` value of the record. -/
def question : Conversation → String
  | .success q _ _ _ _ _ => q
  | .failure q _ _ _ => q

end Conversation

/-- The per-session store `st.session_state` (initialised at
app.py:24-43; `pending_question` is created on demand at app.py:226). -/
structure AppState where
  chat_history : List Conversation
  uploaded_documents : List Doc
  feedback : List (Nat × FbEntry)
  selected_document : Option SelectedDoc
  chat_with_doc : Option String
  auto_fill_question : Option String
  pending_question : Option String
  switch_to_chat : Bool
deriving DecidableEq

/-- The store as initialised for a fresh session (app.py:24-43). -/
def initState : AppState where
  chat_history := []
  uploaded_documents := []
  feedback := []
  selected_document := none
  chat_with_doc := none
  auto_fill_question := none
  pending_question := none
  switch_to_chat := false

/-- The document-selection UI of tab 1 (app.py:237-276), which runs
before the question handler on every submission.  With a non-empty
registry the dropdown `choice` is one of
`"🔍 Search All Documents"` or `"📄 <name>"`; choosing "Search All" only
sets locals and leaves `selected_document` untouched, choosing a name
strips the `"📄 "` prefix, looks the document up by name and stores
`{'name':..., 'id': document_id}` (app.py:266-270), storing `None` when
no document of that name exists (app.py:273).  With an empty registry
`selected_document` is set to `None` (app.py:276). -/
def resolveSelectionUI (docs : List Doc) (choice : String) (sel : Option SelectedDoc) :
    Option SelectedDoc :=
  if docs.isEmpty then none
  else if choice = "🔍 Search All Documents" then sel
  else
    let docName := choice.replace "📄 " ""
    match docs.find? (fun d => d.name = docName) with
    | some d => some { name := docName, id := d.document_id }
    | none => none

/-- The parameters the question handler sends, as a function of the
registry, the dropdown choice and the prior selection/focus state: the
selection UI (app.py:237-276) runs first, then the params construction
(app.py:326-346). -/
def tab1QueryParams (docs : List Doc) (choice : String) (sel : Option SelectedDoc)
    (foc : Option String) (q : String) : Params :=
  buildParams (resolveSelectionUI docs choice sel) foc q

/-- Outcome of the `POST /query` call as the handler distinguishes it
(app.py:350-405): HTTP 200 with a parsed body (optional `answer`,
`sources` defaulting to `[]`), a non-200 status, or a raised exception. -/
inductive QueryOutcome where
  | ok (answer : Option String) (sources : List Source)
  | badStatus (code : Nat) (text : String)
  | exn (msg : String)
deriving DecidableEq

/-- The display-name of the scope recorded on a success record
(app.py:361-365, 378): the selection's name if a selection is set, else
the focus if truthy, else nothing; `or "All Documents"` applied on
store. -/
def searchedDoc (sel : Option SelectedDoc) (foc : Option String) : Option String :=
  match sel with
  | some sd => some sd.name
  | none => if pyTruthy foc then foc else none

/-- The tab-1 question handler (app.py:319-405): build the query params,
issue the call (its resolved outcome is the `out` argument), and append
exactly one record to `chat_history` — the success shape on HTTP 200,
the failure shape with answer `"Error: API returned <code>"` on a
non-200 status, and the failure shape with answer `"Error: <msg>"` on an
exception.  `now` is the `time.strftime` value at append time. -/
def handleQuestion (s : AppState) (q : String) (out : QueryOutcome) (now : String) : AppState :=
  let params := buildParams s.selected_document s.chat_with_doc q
  let record : Conversation :=
    match out with
    | .ok ans srcs =>
        .success q (ans.getD "No answer provided") srcs now
          (pyGetOr (searchedDoc s.selected_document s.chat_with_doc) "All Documents") params
    | .badStatus code _ =>
        .failure q ("Error: API returned " ++ Nat.repr code) [] now
    | .exn msg =>
        .failure q ("Error: " ++ msg) [] now
  { s with chat_history := s.chat_history ++ [record] }

/-- The "Clear Chat History" button handler (app.py:141-146): empties
`chat_history` and `feedback`; nothing else is touched. -/
def clearChatHistory (s : AppState) : AppState :=
  { s with chat_history := [], feedback := [] }

/-- Python dict assignment `fb[idx] = e` on an insertion-ordered dict
embedded as an association list: replace the value at an existing key in
place, or append a new binding. -/
def dictInsert (fb : List (Nat × FbEntry)) (idx : Nat) (e : FbEntry) : List (Nat × FbEntry) :=
  match fb with
  | [] => [(idx, e)]
  | (k, v) :: rest =>
      if k = idx then (k, e) :: rest else (k, v) :: dictInsert rest idx e

/-- The feedback handler `add_feedback_to_history` (app.py:102-107): a
plain dict assignment of the entry at `question_idx` (the toast
notification is presentation only).  `ts` is the `time.strftime`
value. -/
def add_feedback_to_history (fb : List (Nat × FbEntry)) (idx : Nat) (ty : FbType)
    (ts : String) : List (Nat × FbEntry) :=
  dictInsert fb idx { fbType := ty, timestamp := ts }

/-- A sequence of feedback calls on one index, oldest first. -/
def applyFeedbackCalls (fb : List (Nat × FbEntry)) (idx : Nat)
    (calls : List (FbType × String)) : List (Nat × FbEntry) :=
  calls.foldl (fun acc c => add_feedback_to_history acc idx c.1 c.2) fb

/-- Number of bindings of the feedback dict at a given key. -/
def keyCount (idx : Nat) (fb : List (Nat × FbEntry)) : Nat :=
  fb.countP (fun p => decide (p.1 = idx))

/-- Outcome of the `POST /upload` call as the handler distinguishes it
(app.py:497-561): HTTP 200 with a parsed body, a non-200 status, a
`requests.exceptions.Timeout`, or any other exception. -/
inductive UploadOutcome where
  | ok (resp : UploadResp)
  | badStatus (code : Nat)
  | timeout
  | exn (msg : String)
deriving DecidableEq

/-- The id-extraction chain
`result.get('document_id') or result.get('id') or result.get('file_id')`
(app.py:506): first truthy candidate, else the last candidate's value. -/
def extractDocId (r : UploadResp) : Option String :=
  pyOrStr r.document_id (pyOrStr r.id r.file_id)

/-- The synthesized id `f"doc_{int(time.time())}_{uploaded_file.name[:20]}"`
(app.py:510). -/
def synthDocId (epoch : Nat) (filename : String) : String :=
  "doc_" ++ Nat.repr epoch ++ "_" ++ filename.take 20

/-- The document id finally stored (app.py:506-510): the extracted id
when truthy, the synthesized one otherwise (`if not document_id:`). -/
def uploadDocId (r : UploadResp) (epoch : Nat) (filename : String) : String :=
  match extractDocId r with
  | some s => if s = "" then synthDocId epoch filename else s
  | none => synthDocId epoch filename

/-- The "Upload & Process" button handler (app.py:472-561): on HTTP 200,
build `doc_info` (app.py:513-524) and append it to
`uploaded_documents`; on a non-200 status, a timeout or any other
exception only status text is shown and the store is untouched.
`sizeBytes` is `uploaded_file.size`; `epoch` is `int(time.time())`;
`now` is the `time.strftime` value. -/
def handleUpload (s : AppState) (filename processName : String) (sizeBytes : Nat)
    (chunkSize chunkOverlap : Nat) (epoch : Nat) (now : String)
    (out : UploadOutcome) : AppState :=
  match out with
  | .ok r =>
      let docId := uploadDocId r epoch filename
      let docInfo : Doc :=
        { name := pyGetOr (some processName) filename
          original_filename := filename
          size_mb := (sizeBytes : ℚ) / (1024 * 1024)
          chunks := r.chunks_added
          chunk_size := chunkSize
          chunk_overlap := chunkOverlap
          timestamp := now
          status := "✅ Processed"
          document_id := docId
          upload_response := r }
      { s with uploaded_documents := s.uploaded_documents ++ [docInfo] }
  | .badStatus _ => s
  | .timeout => s
  | .exn _ => s

/-- Python `s.lower()`, embedded character-wise at the
character-sequence level. -/
def lowerData (s : String) : List Char := s.data.map Char.toLower

/-- Python substring test `needle in hay`: a contiguous run of `hay`
equals `needle`. -/
def strContains (needle hay : List Char) : Bool := decide (needle <:+: hay)

/-- The document-management search predicate
`search_term.lower() in d['name'].lower()` (app.py:575). -/
def docMatches (term : String) (d : Doc) : Bool :=
  strContains (lowerData term) (lowerData d.name)

/-- The displayed list `filtered_docs` (app.py:573-575): the registry
itself when the search box is empty (falsy), else the name filter
applied to it. -/
def filteredDocs (term : String) (docs : List Doc) : List Doc :=
  if term = "" then docs else docs.filter (docMatches term)

/-- The Remove button handler (app.py:610-614): the button rendered
under the document at position `i` of `filtered_docs` runs
`st.session_state.uploaded_documents.pop(i)` — the index taken from the
enumeration of the filtered list is applied to the full registry. -/
def manageRemove (docs : List Doc) (term : String) (i : Nat) : List Doc :=
  docs.eraseIdx i

/-- The count `good_feedback` (app.py:733): the number of feedback
values whose type is good. -/
def goodCount (fb : List (Nat × FbEntry)) : Nat :=
  fb.countP (fun p => decide (p.2.fbType = FbType.good))

/-- The count `bad_feedback` (app.py:734): the number of feedback
values whose type is bad. -/
def badCount (fb : List (Nat × FbEntry)) : Nat :=
  fb.countP (fun p => decide (p.2.fbType = FbType.bad))

/-- The Satisfaction metric (app.py:743-747):
`(good_feedback / total_feedback) * 100` when `total_feedback > 0`,
otherwise the `"N/A"` placeholder (embedded as `none`) — the division is
never evaluated on an empty feedback map. -/
def satisfaction (fb : List (Nat × FbEntry)) : Option ℚ :=
  if fb.length > 0 then some (((goodCount fb : ℚ) / (fb.length : ℚ)) * 100) else none

/-! The chat export (app.py:150-170).
The functions `json.dumps` / `json.loads` are an external, faithful
codec between JSON values and text; we embed the JSON value level.  Note
that `json.dumps` stringifies the integer keys of the feedback dict, so
re-parsing yields the feedback map keyed by decimal strings. -/

/-- A JSON value. -/
inductive Json where
  | null
  | bool (b : Bool)
  | num (n : Nat)
  | str (s : String)
  | arr (xs : List Json)
  | obj (fields : List (String × Json))

/-- Serialize one `sources` entry. -/
def encodeSource (s : Source) : Json :=
  .obj [("content", .str s.content)]

/-- Serialize the query-params dict (present keys only). -/
def encodeParams (p : Params) : Json :=
  .obj ([("question", Json.str p.question)]
    ++ (match p.document_name with
        | some v => [("document_name", Json.str v)]
        | none => [])
    ++ (match p.document_filter with
        | some v => [("document_filter", Json.str v)]
        | none => [])
    ++ (match p.document_id with
        | some v => [("document_id", Json.str v)]
        | none => []))

/-- Serialize one chat-history record, with exactly the keys the source
puts in each of its two dict shapes. -/
def encodeConv : Conversation → Json
  | .success q a srcs ts ds qp =>
      .obj [("question", .str q), ("answer", .str a),
            ("sources", .arr (srcs.map encodeSource)), ("timestamp", .str ts),
            ("document_searched", .str ds), ("query_params", encodeParams qp)]
  | .failure q a srcs ts =>
      .obj [("question", .str q), ("answer", .str a),
            ("sources", .arr (srcs.map encodeSource)), ("error", .bool true),
            ("timestamp", .str ts)]

/-- The string `json.dumps` uses for a feedback type. -/
def fbTypeStr : FbType → String
  | .good => "good"
  | .bad => "bad"

/-- Serialize one feedback value `{'type': ..., 'timestamp': ...}`. -/
def encodeFbVal (e : FbEntry) : Json :=
  .obj [("type", .str (fbTypeStr e.fbType)), ("timestamp", .str e.timestamp)]

/-- Serialize the feedback dict; `json.dumps` turns the integer keys
into decimal strings. -/
def encodeFeedback (fb : List (Nat × FbEntry)) : Json :=
  .obj (fb.map fun p => (Nat.repr p.1, encodeFbVal p.2))

/-- The `export_data` dict of the "Export Chat as JSON" handler
(app.py:152-160): the full chat history, the feedback map, and metadata
with `export_date`, `total_conversations = len(chat_history)` and
`total_messages = len(chat_history) * 2`. -/
def exportData (s : AppState) (exportDate : String) : Json :=
  .obj [("chat_history", .arr (s.chat_history.map encodeConv)),
        ("feedback", encodeFeedback s.feedback),
        ("metadata", .obj [("export_date", .str exportDate),
                           ("total_conversations", .num s.chat_history.length),
                           ("total_messages", .num (s.chat_history.length * 2))])]

/-- Decode every element of a list, failing if any element fails. -/
def mapMOpt {α β : Type} (f : α → Option β) : List α → Option (List β)
  | [] => some []
  | a :: t =>
      match f a, mapMOpt f t with
      | some b, some bs => some (b :: bs)
      | _, _ => none

/-- Field lookup in a parsed JSON object, expecting a string. -/
def getStr? (fs : List (String × Json)) (k : String) : Option String :=
  match fs.lookup k with
  | some (Json.str s) => some s
  | _ => none

/-- Re-parse one `sources` entry. -/
def decodeSource (j : Json) : Option Source :=
  match j with
  | .obj fs =>
      match getStr? fs "content" with
      | some c => some { content := c }
      | none => none
  | _ => none

/-- Re-parse a query-params dict. -/
def decodeParams (j : Json) : Option Params :=
  match j with
  | .obj fs =>
      match getStr? fs "question" with
      | some q =>
          some { question := q
                 document_name := getStr? fs "document_name"
                 document_filter := getStr? fs "document_filter"
                 document_id := getStr? fs "document_id" }
      | none => none
  | _ => none

/-- Re-parse one chat-history record, keying the shape on the presence
of the `error` field. -/
def decodeConv (j : Json) : Option Conversation :=
  match j with
  | .obj fs => do
      let q ← getStr? fs "question"
      let a ← getStr? fs "answer"
      let srcsJson ← match fs.lookup "sources" with
        | some (Json.arr xs) => some xs
        | _ => none
      let srcs ← mapMOpt decodeSource srcsJson
      let ts ← getStr? fs "timestamp"
      match fs.lookup "error" with
      | some (Json.bool true) => some (.failure q a srcs ts)
      | _ => do
          let ds ← getStr? fs "document_searched"
          let qpJson ← fs.lookup "query_params"
          let qp ← decodeParams qpJson
          some (.success q a srcs ts ds qp)
  | _ => none

/-- Re-parse a feedback map back to its canonical Lean form, key strings
kept as `json.loads` would give them. -/
def decodeFbVal (j : Json) : Option FbEntry :=
  match j with
  | .obj fs => do
      let tyStr ← getStr? fs "type"
      let ty ← match tyStr with
        | "good" => some FbType.good
        | "bad" => some FbType.bad
        | _ => none
      let ts ← getStr? fs "timestamp"
      some { fbType := ty, timestamp := ts }
  | _ => none

/-- What re-parsing the export yields: the chat history, the
(string-keyed) feedback map, and the `total_conversations` metadata. -/
def decodeExport (j : Json) : Option (List Conversation × List (String × FbEntry) × Nat) :=
  match j with
  | .obj fs => do
      let chJson ← match fs.lookup "chat_history" with
        | some (Json.arr xs) => some xs
        | _ => none
      let ch ← mapMOpt decodeConv chJson
      let fbJson ← match fs.lookup "feedback" with
        | some (Json.obj gs) => some gs
        | _ => none
      let fb ← mapMOpt (fun p => (decodeFbVal p.2).map fun e => (p.1, e)) fbJson
      let total ← match fs.lookup "metadata" with
        | some (Json.obj ms) =>
            match ms.lookup "total_conversations" with
            | some (Json.num n) => some n
            | _ => none
        | _ => none
      some (ch, fb, total)
  | _ => none

/-! ## Theorems -/

/-- C7: "Clear Chat History" empties the conversation log and the
feedback map together in one operation and leaves every other part of
the state unchanged — the document registry (and hence its count), the
selection/focus state, the pending-question flags. -/
theorem c7_clear_chat_frame (s : AppState) :
    (clearChatHistory s).chat_history = []
    ∧ (clearChatHistory s).feedback = []
    ∧ (clearChatHistory s).uploaded_documents = s.uploaded_documents
    ∧ (clearChatHistory s).uploaded_documents.length = s.uploaded_documents.length
    ∧ (clearChatHistory s).selected_document = s.selected_document
    ∧ (clearChatHistory s).chat_with_doc = s.chat_with_doc
    ∧ (clearChatHistory s).auto_fill_question = s.auto_fill_question
    ∧ (clearChatHistory s).pending_question = s.pending_question
    ∧ (clearChatHistory s).switch_to_chat = s.switch_to_chat :=
  ⟨rfl, rfl, rfl, rfl, rfl, rfl, rfl, rfl, rfl⟩

/-- C1 counterexample: with an explicit selection of document "A" and a
standing focus on document "B", the params construction of
app.py:326-346 sends `document_name = "B"` — the lingering focus
overwrites the explicit selection, the opposite of the precedence the
specification states (embedded as `claimedScopeParams`). -/
theorem c1_counterexample :
    (buildParams (some { name := "A", id := "a1" }) (some "B") "q").document_name = some "B"
    ∧ buildParams (some { name := "A", id := "a1" }) (some "B") "q"
        ≠ claimedScopeParams (some { name := "A", id := "a1" }) (some "B") "q" := by
  refine ⟨rfl, ?_⟩
  decide

/-- C1 amended: in the params construction of app.py:326-346,
`document_name` and `document_filter` are determined by the standing
focus whenever it is truthy — the focus overrides any explicit
selection — and by the selection otherwise; `document_id` is determined
by the explicit selection alone; with neither set, no document
parameters are sent.  The result depends only on the selection/focus
state, so it is independent of the order of the prior actions that set
them. -/
theorem c1_amended_focus_overrides_selection (sel : Option SelectedDoc) (foc : Option String)
    (q : String) : buildParams sel foc q = amendedScopeParams sel foc q := by
  cases sel with
  | none =>
      cases foc with
      | none => rfl
      | some c =>
          by_cases hc : c = "" <;>
            simp [buildParams, amendedScopeParams, pyTruthy, hc]
  | some sd =>
      cases foc with
      | none => rfl
      | some c =>
          by_cases hc : c = "" <;>
            simp [buildParams, amendedScopeParams, pyTruthy, hc]

/-- C4 counterexample: with an empty registry but a stale standing focus
("Stale Doc" set by a previous "chat with this document" action whose
document was since removed), the handler still sends `document_name` and
`document_filter` — the empty-registry branch (app.py:276) clears only
`selected_document`, not `chat_with_doc`. -/
theorem c4_counterexample :
    (tab1QueryParams [] "🔍 Search All Documents" none (some "Stale Doc") "q").document_name
        = some "Stale Doc"
    ∧ (tab1QueryParams [] "🔍 Search All Documents" none (some "Stale Doc") "q").document_filter
        = some "Stale Doc" := by
  constructor <;> rfl

/-- C4 amended: with an empty registry the selection UI clears
`selected_document`, so the selection contributes nothing — in
particular `document_id` is never sent — and when the standing
`chat_with_doc` focus is also unset (or empty) no document parameter is
sent at all; but a stale truthy focus still injects `document_name` and
`document_filter` into the query. -/
theorem c4_amended_empty_registry (choice : String) (sel : Option SelectedDoc)
    (foc : Option String) (q : String) :
    (tab1QueryParams [] choice sel foc q).document_id = none
    ∧ (pyTruthy foc = false → tab1QueryParams [] choice sel foc q = { question := q })
    ∧ (∀ c, foc = some c → c ≠ "" →
        (tab1QueryParams [] choice sel foc q).document_name = some c
        ∧ (tab1QueryParams [] choice sel foc q).document_filter = some c) := by
  have hres : resolveSelectionUI [] choice sel = none := by
    simp [resolveSelectionUI]
  refine ⟨?_, ?_, ?_⟩
  · unfold tab1QueryParams
    rw [hres]
    cases foc with
    | none => rfl
    | some c =>
        by_cases hc : c = "" <;> simp [buildParams, hc]
  · intro hfoc
    unfold tab1QueryParams
    rw [hres]
    cases foc with
    | none => rfl
    | some c =>
        simp [pyTruthy] at hfoc
        simp [buildParams, hfoc]
  · intro c hfoc hc
    subst hfoc
    unfold tab1QueryParams
    rw [hres]
    constructor <;> simp [buildParams, hc]

/-- C4 witness: at the concrete empty-registry state with no focus, the
amended theorem yields the bare `{question}` params; with the focus
"Stale Doc" it yields that name in both filter fields. -/
theorem c4_amended_empty_registry_witness :
    tab1QueryParams [] "x" none none "q" = { question := "q" }
    ∧ (tab1QueryParams [] "x" none (some "Stale Doc") "q").document_name = some "Stale Doc" := by
  constructor
  · exact (c4_amended_empty_registry "x" none none "q").2.1 rfl
  · exact ((c4_amended_empty_registry "x" none (some "Stale Doc") "q").2.2 "Stale Doc" rfl
      (by decide)).1

theorem handleQuestion_chat_length (s : AppState) (q : String) (out : QueryOutcome)
    (now : String) :
    (handleQuestion s q out now).chat_history.length = s.chat_history.length + 1 := by
  cases out <;> simp [handleQuestion]

/-- C2: every question submission appends exactly one record to the
conversation log — on HTTP 200 the success record, on a non-200 status
the failure record with answer `"Error: API returned <code>"`, on a
transport exception the failure record with answer `"Error: <msg>"`,
both failure shapes carrying the error flag; hence after any sequence of
N attempts the log has grown by exactly N. -/
theorem c2_query_appends_exactly_one :
    (∀ s q out now, (handleQuestion s q out now).chat_history.length
        = s.chat_history.length + 1)
    ∧ (∀ s q ans srcs now, (handleQuestion s q (.ok ans srcs) now).chat_history
        = s.chat_history
          ++ [Conversation.success q (ans.getD "No answer provided") srcs now
                (pyGetOr (searchedDoc s.selected_document s.chat_with_doc) "All Documents")
                (buildParams s.selected_document s.chat_with_doc q)])
    ∧ (∀ s q code text now, (handleQuestion s q (.badStatus code text) now).chat_history
        = s.chat_history
          ++ [Conversation.failure q ("Error: API returned " ++ Nat.repr code) [] now])
    ∧ (∀ s q msg now, (handleQuestion s q (.exn msg) now).chat_history
        = s.chat_history ++ [Conversation.failure q ("Error: " ++ msg) [] now])
    ∧ (∀ s q code text now,
        ((handleQuestion s q (.badStatus code text) now).chat_history.getLast?).map
          Conversation.isError = some true)
    ∧ (∀ s q msg now,
        ((handleQuestion s q (.exn msg) now).chat_history.getLast?).map
          Conversation.isError = some true)
    ∧ (∀ s (attempts : List (String × QueryOutcome × String)),
        (attempts.foldl (fun st a => handleQuestion st a.1 a.2.1 a.2.2) s).chat_history.length
          = s.chat_history.length + attempts.length) := by
  refine ⟨handleQuestion_chat_length, fun s q ans srcs now => rfl,
    fun s q code text now => rfl, fun s q msg now => rfl, ?_, ?_, ?_⟩
  · intro s q code text now
    show ((s.chat_history ++ [_]).getLast?).map Conversation.isError = some true
    rw [List.getLast?_concat]
    rfl
  · intro s q msg now
    show ((s.chat_history ++ [_]).getLast?).map Conversation.isError = some true
    rw [List.getLast?_concat]
    rfl
  · intro s attempts
    induction attempts generalizing s with
    | nil => simp
    | cons a t ih =>
        simp only [List.foldl_cons, List.length_cons]
        rw [ih, handleQuestion_chat_length]
        omega

/-- C5 counterexample: a failed query against the fresh session appends
a record with no `document_searched` field at all — the log then
contains a Conversation record that does not carry a documentScope,
refuting "every record carries a documentScope field". -/
theorem c5_counterexample :
    ((handleQuestion initState "q" (.badStatus 500 "boom") "t").chat_history.map
        Conversation.documentScope?) = [none] := rfl

/-- C5 amended: only the records produced by successful queries carry a
`document_searched` field, set to the scoped document's display name or
the literal "All Documents" sentinel; the records produced by failed
queries (non-200 status or exception) omit the field entirely. -/
theorem c5_amended_document_scope :
    (∀ s q ans srcs now,
        ((handleQuestion s q (.ok ans srcs) now).chat_history.getLast?).map
            Conversation.documentScope?
          = some (some (pyGetOr (searchedDoc s.selected_document s.chat_with_doc)
              "All Documents")))
    ∧ (∀ s q code text now,
        ((handleQuestion s q (.badStatus code text) now).chat_history.getLast?).map
            Conversation.documentScope? = some none)
    ∧ (∀ s q msg now,
        ((handleQuestion s q (.exn msg) now).chat_history.getLast?).map
            Conversation.documentScope? = some none) := by
  refine ⟨?_, ?_, ?_⟩ <;>
    · intros
      show ((_ ++ [_]).getLast?).map Conversation.documentScope? = _
      rw [List.getLast?_concat]
      rfl

theorem synthDocId_ne_empty (epoch : Nat) (filename : String) :
    synthDocId epoch filename ≠ "" := by
  intro h
  have hlen := congrArg String.length h
  simp [synthDocId, String.length_append] at hlen
  exact absurd hlen.1.1.1 (by decide)

/-- C3: an upload receiving HTTP 200 appends exactly one Document record
to the registry, whose `document_id` is the first truthy of the
response's `document_id`/`id`/`file_id` fields or the synthesized
`doc_<epoch>_<first 20 chars of filename>` when none is, and is in
either case non-empty; a failed upload (non-200 status, timeout, or
other exception) leaves the whole store unchanged.  The append is a pure
function of the fully resolved call outcome — there is no optimistic
insertion. -/
theorem c3_upload_appends_on_success_only :
    (∀ s fn pn sz cs co ep now r,
        (handleUpload s fn pn sz cs co ep now (.ok r)).uploaded_documents
          = s.uploaded_documents
            ++ [{ name := pyGetOr (some pn) fn
                  original_filename := fn
                  size_mb := (sz : ℚ) / (1024 * 1024)
                  chunks := r.chunks_added
                  chunk_size := cs
                  chunk_overlap := co
                  timestamp := now
                  status := "✅ Processed"
                  document_id := uploadDocId r ep fn
                  upload_response := r }])
    ∧ (∀ r ep fn, uploadDocId r ep fn ≠ "")
    ∧ (∀ r ep fn, (∃ v, extractDocId r = some v ∧ v ≠ "" ∧ uploadDocId r ep fn = v)
        ∨ uploadDocId r ep fn = "doc_" ++ Nat.repr ep ++ "_" ++ fn.take 20)
    ∧ (∀ s fn pn sz cs co ep now code,
        handleUpload s fn pn sz cs co ep now (.badStatus code) = s)
    ∧ (∀ s fn pn sz cs co ep now, handleUpload s fn pn sz cs co ep now .timeout = s)
    ∧ (∀ s fn pn sz cs co ep now msg, handleUpload s fn pn sz cs co ep now (.exn msg) = s) := by
  refine ⟨fun s fn pn sz cs co ep now r => rfl, ?_, ?_,
    fun s fn pn sz cs co ep now code => rfl, fun s fn pn sz cs co ep now => rfl,
    fun s fn pn sz cs co ep now msg => rfl⟩
  · intro r ep fn
    unfold uploadDocId
    cases hx : extractDocId r with
    | none => exact synthDocId_ne_empty ep fn
    | some v =>
        by_cases hv : v = ""
        · simpa [hv] using synthDocId_ne_empty ep fn
        · simp [hv]
  · intro r ep fn
    unfold uploadDocId
    cases hx : extractDocId r with
    | none => exact Or.inr rfl
    | some v =>
        by_cases hv : v = ""
        · exact Or.inr (by simp [hv, synthDocId])
        · exact Or.inl ⟨v, rfl, hv, by simp [hv]⟩

theorem lookup_dictInsert (fb : List (Nat × FbEntry)) (idx : Nat) (e : FbEntry) :
    (dictInsert fb idx e).lookup idx = some e := by
  induction fb with
  | nil => simp [dictInsert, List.lookup]
  | cons p rest ih =>
      obtain ⟨k, v⟩ := p
      by_cases hk : k = idx
      · subst hk
        simp [dictInsert, List.lookup]
      · have hk' : (idx == k) = false := by
          simp [Ne.symm hk]
        simp [dictInsert, hk, List.lookup, hk', ih]

theorem keyCount_cons (idx k : Nat) (v : FbEntry) (rest : List (Nat × FbEntry)) :
    keyCount idx ((k, v) :: rest) = keyCount idx rest + if k = idx then 1 else 0 := by
  simp [keyCount, List.countP_cons]

theorem keyCount_dictInsert (fb : List (Nat × FbEntry)) (idx : Nat) (e : FbEntry)
    (h : keyCount idx fb ≤ 1) : keyCount idx (dictInsert fb idx e) = 1 := by
  induction fb with
  | nil => simp [dictInsert, keyCount]
  | cons p rest ih =>
      obtain ⟨k, v⟩ := p
      rw [keyCount_cons] at h
      by_cases hk : k = idx
      · subst hk
        rw [if_pos rfl] at h
        simp only [dictInsert, eq_self_iff_true, if_true]
        rw [keyCount_cons, if_pos rfl]
        omega
      · rw [if_neg hk] at h
        simp only [dictInsert, if_neg hk]
        rw [keyCount_cons, if_neg hk]
        have := ih (by omega)
        omega

theorem dictInsert_idem (fb : List (Nat × FbEntry)) (idx : Nat) (e : FbEntry) :
    dictInsert (dictInsert fb idx e) idx e = dictInsert fb idx e := by
  induction fb with
  | nil => simp [dictInsert]
  | cons p rest ih =>
      obtain ⟨k, v⟩ := p
      by_cases hk : k = idx <;> simp [dictInsert, hk, ih]

theorem keyCount_applyFeedbackCalls_le (idx : Nat) (calls : List (FbType × String)) :
    ∀ fb : List (Nat × FbEntry), keyCount idx fb ≤ 1 →
      keyCount idx (applyFeedbackCalls fb idx calls) ≤ 1 := by
  induction calls with
  | nil => exact fun fb h => h
  | cons c t ih =>
      intro fb h
      simp only [applyFeedbackCalls, List.foldl_cons] at *
      exact ih _ (le_of_eq (keyCount_dictInsert fb idx _ h))

/-- C6: `add_feedback_to_history` is an upsert keyed by conversation
index.  Starting from any feedback map holding at most one binding for
the index, any non-empty sequence of calls on that index leaves exactly
one binding, whose value is the last call's; repeating an identical call
(same index, type and timestamp) changes nothing; and rating index 2 as
good then bad leaves exactly one binding, of type bad. -/
theorem c6_feedback_upsert :
    (∀ fb idx (pre : List (FbType × String)) ty ts, keyCount idx fb ≤ 1 →
        keyCount idx (applyFeedbackCalls fb idx (pre ++ [(ty, ts)])) = 1
        ∧ (applyFeedbackCalls fb idx (pre ++ [(ty, ts)])).lookup idx
            = some { fbType := ty, timestamp := ts })
    ∧ (∀ fb idx ty ts,
        add_feedback_to_history (add_feedback_to_history fb idx ty ts) idx ty ts
          = add_feedback_to_history fb idx ty ts)
    ∧ (∀ fb ts1 ts2, keyCount 2 fb ≤ 1 →
        keyCount 2 (add_feedback_to_history
            (add_feedback_to_history fb 2 .good ts1) 2 .bad ts2) = 1
        ∧ (add_feedback_to_history
            (add_feedback_to_history fb 2 .good ts1) 2 .bad ts2).lookup 2
            = some { fbType := .bad, timestamp := ts2 }) := by
  refine ⟨?_, ?_, ?_⟩
  · intro fb idx pre ty ts h
    have hsplit : applyFeedbackCalls fb idx (pre ++ [(ty, ts)])
        = add_feedback_to_history (applyFeedbackCalls fb idx pre) idx ty ts := by
      simp [applyFeedbackCalls, List.foldl_append]
    rw [hsplit]
    have hpre := keyCount_applyFeedbackCalls_le idx pre fb h
    exact ⟨keyCount_dictInsert _ idx _ hpre, lookup_dictInsert _ idx _⟩
  · intro fb idx ty ts
    exact dictInsert_idem fb idx _
  · intro fb ts1 ts2 h
    have h1 : keyCount 2 (add_feedback_to_history fb 2 .good ts1) ≤ 1 :=
      le_of_eq (keyCount_dictInsert fb 2 _ h)
    exact ⟨keyCount_dictInsert _ 2 _ h1, lookup_dictInsert _ 2 _⟩

/-- C6 witness: on the empty feedback map, rating index 2 as good then
bad leaves exactly one binding at index 2, of type bad. -/
theorem c6_feedback_upsert_witness :
    keyCount 2 (add_feedback_to_history
        (add_feedback_to_history [] 2 .good "t1") 2 .bad "t2") = 1
    ∧ (add_feedback_to_history
        (add_feedback_to_history [] 2 .good "t1") 2 .bad "t2").lookup 2
        = some { fbType := .bad, timestamp := "t2" } :=
  c6_feedback_upsert.2.2 [] "t1" "t2" (by decide)

theorem goodCount_add_badCount (fb : List (Nat × FbEntry)) :
    goodCount fb + badCount fb = fb.length := by
  induction fb with
  | nil => rfl
  | cons p rest ih =>
      cases hty : p.2.fbType <;>
        simp [goodCount, badCount, List.countP_cons, hty] at ih ⊢ <;> omega

/-- C9: the Satisfaction metric equals `good / (good + bad)` (times 100)
over the feedback map — every feedback value being of type good or bad,
the dict's size is `good + bad` — and on an empty feedback map it is the
"N/A" placeholder, the division never being evaluated. -/
theorem c9_satisfaction_rate :
    (∀ fb, fb ≠ [] →
        satisfaction fb
          = some (((goodCount fb : ℚ) / ((goodCount fb : ℚ) + (badCount fb : ℚ))) * 100))
    ∧ satisfaction [] = none := by
  constructor
  · intro fb h
    have hlen : ((fb.length : ℚ)) = (goodCount fb : ℚ) + (badCount fb : ℚ) := by
      exact_mod_cast (goodCount_add_badCount fb).symm
    rw [satisfaction, if_pos (List.length_pos.mpr h), hlen]
  · rfl

/-- C9 witness: with feedback `{0: good, 1: good, 2: bad}` the
Satisfaction metric is `(2/3) * 100` percent. -/
theorem c9_satisfaction_rate_witness :
    satisfaction [(0, ⟨.good, "t0"⟩), (1, ⟨.good, "t1"⟩), (2, ⟨.bad, "t2"⟩)]
      = some (200 / 3) := by
  have h := c9_satisfaction_rate.1
    [(0, ⟨.good, "t0"⟩), (1, ⟨.good, "t1"⟩), (2, ⟨.bad, "t2"⟩)] (by decide)
  have hg : goodCount [(0, ⟨.good, "t0"⟩), (1, ⟨.good, "t1"⟩), (2, ⟨.bad, "t2"⟩)] = 2 := by
    decide
  have hb : badCount [(0, ⟨.good, "t0"⟩), (1, ⟨.good, "t1"⟩), (2, ⟨.bad, "t2"⟩)] = 1 := by
    decide
  rw [hg, hb] at h
  rw [h]
  norm_num

theorem decodeSource_encodeSource (s : Source) : decodeSource (encodeSource s) = some s := rfl

theorem mapM_decodeSource (l : List Source) :
    mapMOpt decodeSource (l.map encodeSource) = some l := by
  induction l with
  | nil => rfl
  | cons a t ih => simp [mapMOpt, ih, decodeSource_encodeSource]

theorem decodeParams_encodeParams (p : Params) : decodeParams (encodeParams p) = some p := by
  obtain ⟨q, dn, df, di⟩ := p
  cases dn <;> cases df <;> cases di <;> rfl

theorem decodeConv_encodeConv (c : Conversation) : decodeConv (encodeConv c) = some c := by
  cases c with
  | success q a srcs ts ds qp =>
      simp [encodeConv, decodeConv, getStr?, List.lookup, mapM_decodeSource,
        decodeParams_encodeParams]
  | failure q a srcs ts =>
      simp [encodeConv, decodeConv, getStr?, List.lookup, mapM_decodeSource]

theorem mapM_decodeConv (l : List Conversation) :
    mapMOpt decodeConv (l.map encodeConv) = some l := by
  induction l with
  | nil => rfl
  | cons c t ih => simp [mapMOpt, ih, decodeConv_encodeConv]

theorem decodeFbVal_encodeFbVal (e : FbEntry) : decodeFbVal (encodeFbVal e) = some e := by
  obtain ⟨ty, ts⟩ := e
  cases ty <;> rfl

theorem mapM_decodeFeedback (fb : List (Nat × FbEntry)) :
    mapMOpt (fun p => (decodeFbVal p.2).map fun e => (p.1, e))
        (fb.map fun p => (Nat.repr p.1, encodeFbVal p.2))
      = some (fb.map fun p => (Nat.repr p.1, p.2)) := by
  induction fb with
  | nil => rfl
  | cons a t ih => simp [mapMOpt, ih, decodeFbVal_encodeFbVal]

theorem filter_mismatch_aux {α : Type} (p : α → Bool) :
    ∀ (l : List α) (j k : Nat), j < k →
      ∀ x y, l.get? j = some x → p x = false → l.get? k = some y → p y = true →
        ∃ i a b, l.get? i = some a ∧ (l.filter p).get? i = some b ∧ a ≠ b := by
  intro l
  induction l with
  | nil =>
      intro j k hjk x y hx hpx hy hpy
      simp at hx
  | cons c t ih =>
      intro j k hjk x y hx hpx hy hpy
      by_cases hpc : p c = true
      · cases j with
        | zero =>
            rw [List.get?_cons_zero] at hx
            injection hx with hx
            rw [hx, hpx] at hpc
            simp at hpc
        | succ j1 =>
            cases k with
            | zero => omega
            | succ k1 =>
                rw [List.get?_cons_succ] at hx hy
                obtain ⟨i, a, b, ha, hb, hab⟩ := ih j1 k1 (by omega) x y hx hpx hy hpy
                refine ⟨i + 1, a, b, ?_, ?_, hab⟩
                · rw [List.get?_cons_succ]; exact ha
                · rw [List.filter_cons_of_pos hpc, List.get?_cons_succ]; exact hb
      · have hpc' : p c = false := by simpa using hpc
        cases k with
        | zero => omega
        | succ k1 =>
            rw [List.get?_cons_succ] at hy
            have hym : y ∈ t := List.get?_mem hy
            have hyf : y ∈ t.filter p := List.mem_filter.mpr ⟨hym, hpy⟩
            obtain ⟨b, bs, hfb⟩ := List.exists_cons_of_ne_nil (List.ne_nil_of_mem hyf)
            have hbmem : b ∈ t.filter p := by rw [hfb]; exact List.mem_cons_self b bs
            have hpb : p b = true := (List.mem_filter.mp hbmem).2
            refine ⟨0, c, b, List.get?_cons_zero, ?_, ?_⟩
            · rw [List.filter_cons_of_neg (by simp [hpc']), hfb, List.get?_cons_zero]
            · intro hcb
              rw [hcb, hpb] at hpc'
              cases hpc'

/-- C10: the Remove button rendered under the document at position `i`
of the *filtered* list pops index `i` of the full, unfiltered registry —
the handler is independent of the active search filter; consequently,
whenever the filter excludes some document that precedes a displayed
one, there is a button position whose displayed document differs from
the document the registry actually loses. -/
theorem c10_remove_pops_unfiltered_index :
    (∀ (docs : List Doc) (term : String) (i : Nat),
        manageRemove docs term i = docs.take i ++ docs.drop (i + 1))
    ∧ (∀ (docs : List Doc) (term term2 : String) (i : Nat),
        manageRemove docs term i = manageRemove docs term2 i)
    ∧ (∀ (docs : List Doc) (term : String) (j k : Nat) (x y : Doc), term ≠ "" → j < k →
        docs.get? j = some x → docMatches term x = false →
        docs.get? k = some y → docMatches term y = true →
        ∃ i a b, docs.get? i = some a ∧ (filteredDocs term docs).get? i = some b ∧ a ≠ b) := by
  refine ⟨?_, fun docs term term2 i => rfl, ?_⟩
  · intro docs term i
    exact List.eraseIdx_eq_take_drop_succ docs i
  · intro docs term j k x y hterm hjk hx hpx hy hpy
    rw [filteredDocs, if_neg hterm]
    exact filter_mismatch_aux (docMatches term) docs j k hjk x y hx hpx hy hpy

/-- A sample registry entry (all fields concrete) for the C10 witness. -/
def sampleDoc (nm : String) : Doc where
  name := nm
  original_filename := nm ++ ".pdf"
  size_mb := 1
  chunks := 1
  chunk_size := 1000
  chunk_overlap := 200
  timestamp := "2026-01-01 00:00:00"
  status := "✅ Processed"
  document_id := "doc-" ++ nm
  upload_response := {}

/-- C10 witness: registry `[x, ab]` with active filter `"a"` — the
filtered list shows only `ab`, but the Remove button at its position 0
pops `x`; position 0 displays a document different from the one
removed. -/
theorem c10_remove_pops_unfiltered_index_witness :
    manageRemove [sampleDoc "x", sampleDoc "ab"] "a" 0
        = List.take 0 [sampleDoc "x", sampleDoc "ab"]
          ++ List.drop 1 [sampleDoc "x", sampleDoc "ab"]
    ∧ ∃ i a b, ([sampleDoc "x", sampleDoc "ab"].get? i) = some a
        ∧ (filteredDocs "a" [sampleDoc "x", sampleDoc "ab"]).get? i = some b ∧ a ≠ b := by
  constructor
  · exact c10_remove_pops_unfiltered_index.1 [sampleDoc "x", sampleDoc "ab"] "a" 0
  · exact c10_remove_pops_unfiltered_index.2.2 [sampleDoc "x", sampleDoc "ab"] "a" 0 1
      (sampleDoc "x") (sampleDoc "ab") (by decide) (by decide) rfl (by decide) rfl (by decide)

/-- C8: the chat export is a deterministic serialization of current
store state — re-parsing the serialized export recovers the full chat
history, the feedback map (keyed, as `json.loads` returns it, by the
decimal strings `json.dumps` made of the integer indices), and a
`total_conversations` metadata value equal to the live conversation-log
length at export time. -/
theorem c8_export_roundtrip (s : AppState) (exportDate : String) :
    decodeExport (exportData s exportDate)
      = some (s.chat_history, s.feedback.map (fun p => (Nat.repr p.1, p.2)),
          s.chat_history.length) := by
  simp [exportData, decodeExport, encodeFeedback, List.lookup, mapM_decodeConv,
    mapM_decodeFeedback]

end RagApp
